import Mathlib

/-!
Shallow embedding of the to-do app backend (FastAPI, `src/backend/app`).

The embedding follows the Python source file by file:
* `app/utils/auth.py`   — `get_current_user`, `get_current_user_optional`,
  together with the behaviour of FastAPI's `HTTPBearer` dependency;
* `app/utils/security.py` — password hashing wrappers and `create_access_token`;
* `app/routers/auth.py` — `register`, `login`;
* `app/routers/todos.py` — `create_todo_item`, `get_all_todos`,
  `update_todo_completion`, `delete_todo_item`;
* `app/schemas/*.py`    — the pydantic validation applied before a handler runs.

Timestamps are abstract `Nat` instants, the database is an explicit list of
rows, and the JWT layer is modelled structurally: a token records the key and
algorithm it was signed with plus its claims, and `jwt.decode` succeeds exactly
when key and algorithm match and the token is not expired, which is the
observable behaviour of `jose.jwt.encode`/`jose.jwt.decode` used by the code.
-/

/-- An HTTP error as raised by the handlers (`fastapi.HTTPException`) or by the
`HTTPBearer` security dependency: status code, `detail` body, and whether the
`WWW-Authenticate: Bearer` header is attached. -/
structure HTTPErr where
  status : Nat
  detail : String
  wwwAuthenticate : Bool
deriving DecidableEq, Repr

/-- Claims carried by a JWT issued or accepted by this app.  `python-jose`
rejects at decode time any present `sub` claim that is not a string, so the
subject claim is modelled as an optional string; `exp` is an optional absolute
expiration instant (`create_access_token` always sets it). -/
structure JWTPayload where
  sub : Option String
  username : Option String
  exp : Option Nat
deriving DecidableEq, Repr

/-- A JWT, modelled structurally: the signing key and algorithm actually used,
plus the payload.  Signature verification succeeds iff the key and algorithm
match the verifier's expectation. -/
structure Token where
  key : String
  alg : String
  payload : JWTPayload
deriving DecidableEq, Repr

/-- JWT-relevant application settings (`app/config.py`, class `Settings`). -/
structure AppSettings where
  SECRET_KEY : String
  ALGORITHM : String
  ACCESS_TOKEN_EXPIRE_HOURS : Nat
deriving DecidableEq, Repr

/-- `jose.jwt.decode(token, key, algorithms)` at instant `now`: fails
(`JWTError`) when the signature key mismatches, the algorithm is not accepted,
or the `exp` claim lies strictly in the past (jose treats `exp < now` as
expired, zero leeway); otherwise returns the claim payload. -/
def jwtDecode (tok : Token) (key : String) (algorithms : List String) (now : Nat) : Except Unit JWTPayload :=
  if tok.key == key && algorithms.contains tok.alg then
    match tok.payload.exp with
    | some e => if e < now then Except.error () else Except.ok tok.payload
    | none => Except.ok tok.payload
  else Except.error ()

/-- `create_access_token` (`app/utils/security.py`): copies the claims, adds
`exp = now + expire_hours`, and signs with the configured secret and
algorithm.  `expireHours` is `ACCESS_TOKEN_EXPIRE_HOURS` when the caller passes
no `expires_delta`. -/
def create_access_token (cfg : AppSettings) (now : Nat) (expireHours : Nat) (sub username : String) : Token :=
  ⟨cfg.SECRET_KEY, cfg.ALGORITHM, ⟨some sub, some username, some (now + expireHours)⟩⟩

/-- One decimal ASCII digit. -/
def isAsciiDigit (c : Char) : Bool :=
  48 ≤ c.toNat && c.toNat ≤ 57

/-- Numeric value of a list of decimal digits (most significant first). -/
def digitsVal (l : List Char) : Nat :=
  l.foldl (fun acc c => acc * 10 + (c.toNat - 48)) 0

/-- Python `str.strip()` with no argument: remove leading and trailing
whitespace. -/
def pyStrip (s : String) : String :=
  ⟨((s.data.dropWhile Char.isWhitespace).reverse.dropWhile Char.isWhitespace).reverse⟩

/-- Python `int(s)` on a string: surrounding whitespace is ignored, an
optional single `+`/`-` sign may precede a non-empty run of decimal digits;
anything else raises `ValueError`, modelled as `none`. -/
def pyIntOfString (s : String) : Option Int :=
  match (pyStrip s).data with
  | [] => none
  | c :: rest =>
    if c == '+' then
      if rest ≠ [] && rest.all isAsciiDigit then some (Int.ofNat (digitsVal rest)) else none
    else if c == '-' then
      if rest ≠ [] && rest.all isAsciiDigit then some (-(Int.ofNat (digitsVal rest))) else none
    else if (c :: rest).all isAsciiDigit then some (Int.ofNat (digitsVal (c :: rest))) else none

/-- A salted digest as produced by the bcrypt backend.

Modelled from the spec: the actual digests are produced by `passlib`'s
`CryptContext(schemes=["bcrypt"])`, a third-party library that is not part of
this repository.  Per the spec's Credential Hasher contract, a digest embeds
the salt used and a one-way tag of salt and plaintext; verification recomputes
the tag from the stored salt. -/
structure BcryptDigest where
  salt : Nat
  tag : Nat
deriving DecidableEq, Repr

/-- Modelled from the spec: the deterministic core of bcrypt — combine a salt
with the plaintext into a tag.  Any injective-enough mixing function exhibits
the contract; a 64-bit polynomial rolling hash is used here. -/
def bcryptTag (salt : Nat) (password : String) : Nat :=
  password.data.foldl (fun h c => (h * 1099511628211 + c.toNat) % (2 ^ 64)) (salt % (2 ^ 64))

/-- Modelled from the spec: hashing with an explicit salt. -/
def bcryptHashWith (salt : Nat) (password : String) : BcryptDigest :=
  ⟨salt, bcryptTag salt password⟩

/-- `hash_password` (`app/utils/security.py`): `pwd_context.hash(password)`.
The fresh random salt drawn by bcrypt on each call is made explicit as the
`salt` argument. -/
def hash_password (salt : Nat) (password : String) : BcryptDigest :=
  bcryptHashWith salt password

/-- `verify_password` (`app/utils/security.py`):
`pwd_context.verify(plain_password, hashed_password)` — recompute the digest
from the stored salt and compare. -/
def verify_password (plain_password : String) (hashed_password : BcryptDigest) : Bool :=
  bcryptHashWith hashed_password.salt plain_password == hashed_password

/-- A row of the `users` table (`app/models/user.py`). -/
structure User where
  id : Int
  username : String
  password_hash : BcryptDigest
  created_at : Nat
deriving DecidableEq, Repr

/-- The 401 raised throughout `get_current_user` (`app/utils/auth.py`):
`HTTPException(401, "Could not validate credentials",
headers={"WWW-Authenticate": "Bearer"})`. -/
def credentials_exception : HTTPErr :=
  ⟨401, "Could not validate credentials", true⟩

/-- The error FastAPI's `HTTPBearer` (with `auto_error=True`) raises when the
request carries no bearer credentials: `HTTPException(403, "Not
authenticated")`. -/
def notAuthenticated : HTTPErr :=
  ⟨403, "Not authenticated", false⟩

/-- `get_current_user` (`app/utils/auth.py`) together with its
`Depends(security)` where `security = HTTPBearer()`: absent credentials are
rejected by `HTTPBearer` with 403; with a bearer token presented, the body
decodes the token, reads the `sub` claim, parses it with `int(...)`, and looks
the user up by id, raising the single `credentials_exception` on every
failure. -/
def get_current_user (cfg : AppSettings) (now : Nat) (db : List User) (credentials : Option Token) : Except HTTPErr User :=
  match credentials with
  | none => Except.error notAuthenticated
  | some token =>
    match jwtDecode token cfg.SECRET_KEY [cfg.ALGORITHM] now with
    | Except.error _ => Except.error credentials_exception
    | Except.ok payload =>
      match payload.sub with
      | none => Except.error credentials_exception
      | some user_id_str =>
        match pyIntOfString user_id_str with
        | none => Except.error credentials_exception
        | some user_id =>
          match db.find? (fun u => u.id == user_id) with
          | none => Except.error credentials_exception
          | some user => Except.ok user

/-- `get_current_user_optional` (`app/utils/auth.py`) together with
`security_optional = HTTPBearer(auto_error=False)`: `None` when no credentials
are presented, `None` on every token or lookup failure, the user otherwise —
it never raises. -/
def get_current_user_optional (cfg : AppSettings) (now : Nat) (db : List User) (credentials : Option Token) : Option User :=
  match credentials with
  | none => none
  | some token =>
    match jwtDecode token cfg.SECRET_KEY [cfg.ALGORITHM] now with
    | Except.error _ => none
    | Except.ok payload =>
      match payload.sub with
      | none => none
      | some user_id_str =>
        match pyIntOfString user_id_str with
        | none => none
        | some user_id => db.find? (fun u => u.id == user_id)

/-- A row of the `todo_items` table (`app/models/todo_item.py`).  `created_at`
has a server default at insert; `updated_at` is `NULL` until the first UPDATE
(`onupdate=func.now()`). -/
structure TodoItem where
  id : Int
  user_id : Int
  text : String
  completed : Bool
  created_at : Nat
  updated_at : Option Nat
deriving DecidableEq, Repr

/-- The `todo_items` table plus its auto-increment id sequence. -/
structure TodoDB where
  items : List TodoItem
  nextId : Int
deriving DecidableEq, Repr

/-- The 422 produced by pydantic request-body validation before a handler
runs.  FastAPI's body has field-level details; only status matters here. -/
def validationError : HTTPErr :=
  ⟨422, "validation error", false⟩

/-- `TodoItemCreate` (`app/schemas/todo_item.py`): `text` constrained by
`Field(min_length=1, max_length=500)` — on the raw, untrimmed text. -/
def validTodoItemCreate (text : String) : Bool :=
  1 ≤ text.length && text.length ≤ 500

/-- `create_todo_item` (`app/routers/todos.py`): after schema validation,
inserts a row with `text=todo_data.text.strip()` (modelled by `pyStrip`), `completed=False`, a fresh
id and a server-side `created_at`, and returns the refreshed row. -/
def create_todo_item (text : String) (current_user : User) (st : TodoDB) (now : Nat) : Except HTTPErr (TodoItem × TodoDB) :=
  if validTodoItemCreate text then
    Except.ok (⟨st.nextId, current_user.id, pyStrip text, false, now, none⟩,
      ⟨st.items ++ [⟨st.nextId, current_user.id, pyStrip text, false, now, none⟩], st.nextId + 1⟩)
  else Except.error validationError

/-- Insert a row into a list kept in descending id order. -/
def insertByIdDesc (t : TodoItem) : List TodoItem → List TodoItem
  | [] => [t]
  | h :: rest => if h.id ≤ t.id then t :: h :: rest else h :: insertByIdDesc t rest

/-- `ORDER BY todo_items.id DESC` as an insertion sort. -/
def sortByIdDesc (l : List TodoItem) : List TodoItem :=
  l.foldr insertByIdDesc []

/-- `get_all_todos` (`app/routers/todos.py`):
`db.query(TodoItem).filter(TodoItem.user_id == current_user.id)
.order_by(TodoItem.id.desc()).all()`. -/
def get_all_todos (current_user : User) (st : TodoDB) : List TodoItem :=
  sortByIdDesc (st.items.filter (fun t => t.user_id == current_user.id))

/-- `update_todo_completion` (`app/routers/todos.py`): load by id
(`.filter(TodoItem.id == todo_id).first()`); 404 if absent; 403 if the owner
is not the caller; otherwise set `completed`, commit (which fires
`onupdate=func.now()` on `updated_at`), and return the refreshed row. -/
def update_todo_completion (todo_id : Int) (completed : Bool) (current_user : User) (st : TodoDB) (now : Nat) : Except HTTPErr (TodoItem × TodoDB) :=
  match st.items.find? (fun t => t.id == todo_id) with
  | none => Except.error ⟨404, "Todo item not found", false⟩
  | some todo =>
    if todo.user_id != current_user.id then
      Except.error ⟨403, "Not authorized to update this item", false⟩
    else
      Except.ok (⟨todo.id, todo.user_id, todo.text, completed, todo.created_at, some now⟩,
        ⟨st.items.map (fun t =>
          if t.id == todo_id then ⟨todo.id, todo.user_id, todo.text, completed, todo.created_at, some now⟩ else t),
         st.nextId⟩)

/-- `delete_todo_item` (`app/routers/todos.py`): load by id; 404 if absent;
403 if the owner is not the caller; otherwise delete the row (hard delete)
and return 204 with no body. -/
def delete_todo_item (todo_id : Int) (current_user : User) (st : TodoDB) : Except HTTPErr TodoDB :=
  match st.items.find? (fun t => t.id == todo_id) with
  | none => Except.error ⟨404, "Todo item not found", false⟩
  | some todo =>
    if todo.user_id != current_user.id then
      Except.error ⟨403, "Not authorized to delete this item", false⟩
    else
      Except.ok ⟨st.items.filter (fun t => !(t.id == todo_id)), st.nextId⟩

/-- `POST /api/todos` as dispatched by FastAPI: resolve the caller through
`Depends(get_current_user)`, then run the handler. -/
def createTodoEndpoint (cfg : AppSettings) (now : Nat) (users : List User) (credentials : Option Token) (text : String) (st : TodoDB) : Except HTTPErr (TodoItem × TodoDB) :=
  match get_current_user cfg now users credentials with
  | Except.error e => Except.error e
  | Except.ok u => create_todo_item text u st now

/-- `GET /api/todos` as dispatched by FastAPI. -/
def listTodosEndpoint (cfg : AppSettings) (now : Nat) (users : List User) (credentials : Option Token) (st : TodoDB) : Except HTTPErr (List TodoItem) :=
  match get_current_user cfg now users credentials with
  | Except.error e => Except.error e
  | Except.ok u => Except.ok (get_all_todos u st)

/-- `PATCH /api/todos/{id}` as dispatched by FastAPI. -/
def updateTodoEndpoint (cfg : AppSettings) (now : Nat) (users : List User) (credentials : Option Token) (todo_id : Int) (completed : Bool) (st : TodoDB) : Except HTTPErr (TodoItem × TodoDB) :=
  match get_current_user cfg now users credentials with
  | Except.error e => Except.error e
  | Except.ok u => update_todo_completion todo_id completed u st now

/-- `DELETE /api/todos/{id}` as dispatched by FastAPI. -/
def deleteTodoEndpoint (cfg : AppSettings) (now : Nat) (users : List User) (credentials : Option Token) (todo_id : Int) (st : TodoDB) : Except HTTPErr TodoDB :=
  match get_current_user cfg now users credentials with
  | Except.error e => Except.error e
  | Except.ok u => delete_todo_item todo_id u st

/-- A character allowed by the `UserCreate` username validator's pattern
`[a-zA-Z0-9_]` (`app/schemas/user.py`). -/
def validUsernameChar (c : Char) : Bool :=
  (97 ≤ c.toNat && c.toNat ≤ 122) || (65 ≤ c.toNat && c.toNat ≤ 90) ||
  (48 ≤ c.toNat && c.toNat ≤ 57) || c.toNat == 95

/-- Python `str.lower()` restricted to the basic latin range, which is the
range username validation admits. -/
def pyLower (s : String) : String :=
  ⟨s.data.map Char.toLower⟩

/-- The payload of a validated `UserCreate` (`app/schemas/user.py`): the
username as normalized by the validator (lowercased), and the password. -/
structure UserCreate where
  username : String
  password : String
deriving DecidableEq, Repr

/-- `UserCreate` validation (`app/schemas/user.py`): username
`Field(min_length=3, max_length=50)` and pattern `^[a-zA-Z0-9_]+$` via
`username_alphanumeric`, which then lowercases; password
`Field(min_length=8)`.  `none` is surfaced by FastAPI as a 422. -/
def validateUserCreate (username password : String) : Option UserCreate :=
  if 3 ≤ username.length && username.length ≤ 50
      && username.data.all validUsernameChar
      && 8 ≤ password.length then
    some ⟨pyLower username, password⟩
  else none

/-- `409 Username already exists`, raised by `register`
(`app/routers/auth.py`) both at the existence check and in the
`IntegrityError` handler. -/
def usernameConflict : HTTPErr :=
  ⟨409, "Username already exists", false⟩

/-- `db.query(User).filter(User.username == username).first()` is some row. -/
def usernameExists (db : List User) (username : String) : Bool :=
  (db.find? (fun u => u.username == username)).isSome

/-- `register` (`app/routers/auth.py`), after schema validation.  The two
table arguments make the check-then-insert race explicit: `dbCheck` is the
`users` table as seen by the existence check, `dbInsert` the table at commit
time — a sequential caller passes the same list twice, a concurrent
registration may have extended the table in between.  A duplicate at check
time raises 409; a duplicate at commit time violates the unique constraint on
`username`, and the resulting `IntegrityError` is caught, rolled back and
translated to the same 409. -/
def register (user_data : UserCreate) (dbCheck dbInsert : List User) (salt : Nat) (newId : Int) (now : Nat) : Except HTTPErr (User × List User) :=
  if usernameExists dbCheck user_data.username then Except.error usernameConflict
  else if usernameExists dbInsert user_data.username then Except.error usernameConflict
  else
    Except.ok (⟨newId, user_data.username, hash_password salt user_data.password, now⟩,
      dbInsert ++ [⟨newId, user_data.username, hash_password salt user_data.password, now⟩])

/-- `POST /api/auth/register` as dispatched by FastAPI: pydantic validation of
the body, then the handler. -/
def registerEndpoint (username password : String) (dbCheck dbInsert : List User) (salt : Nat) (newId : Int) (now : Nat) : Except HTTPErr (User × List User) :=
  match validateUserCreate username password with
  | none => Except.error validationError
  | some user_data => register user_data dbCheck dbInsert salt newId now

/-- The single generic error of `login` (`app/routers/auth.py`):
`HTTPException(401, "Invalid credentials",
headers={"WWW-Authenticate": "Bearer"})`, raised identically for an unknown
username and for a wrong password. -/
def invalidCredentials : HTTPErr :=
  ⟨401, "Invalid credentials", true⟩

/-- Body of a successful login (`app/schemas/auth.py`, `LoginResponse`). -/
structure LoginResponse where
  access_token : Token
  token_type : String
  user_id : Int
  user_username : String
deriving DecidableEq, Repr

/-- `login` (`app/routers/auth.py`): lowercase the username, look the user up,
fail with the generic `invalidCredentials` if absent or if
`verify_password` rejects; otherwise issue a token with
`sub=str(user.id)`, `username=user.username` and default validity. -/
def login (login_username login_password : String) (db : List User) (cfg : AppSettings) (now : Nat) : Except HTTPErr LoginResponse :=
  match db.find? (fun u => u.username == pyLower login_username) with
  | none => Except.error invalidCredentials
  | some user =>
    if !(verify_password login_password user.password_hash) then
      Except.error invalidCredentials
    else
      Except.ok ⟨create_access_token cfg now cfg.ACCESS_TOKEN_EXPIRE_HOURS (toString user.id) user.username,
        "bearer", user.id, user.username⟩

/-- C1: for both ownership-checked item operations (PATCH and DELETE on
`/api/todos/{id}`), a nonexistent id fails with 404 for every caller, and a
403 arises only when the item exists and its owner differs from the caller:
existence is checked strictly before ownership. -/
theorem todo_ops_existence_before_ownership
    (st : TodoDB) (current_user : User) (todo_id : Int) (completed : Bool) (now : Nat) :
    ((∀ t ∈ st.items, t.id ≠ todo_id) →
      update_todo_completion todo_id completed current_user st now =
        Except.error ⟨404, "Todo item not found", false⟩ ∧
      delete_todo_item todo_id current_user st =
        Except.error ⟨404, "Todo item not found", false⟩) ∧
    (∀ todo, st.items.find? (fun t => t.id == todo_id) = some todo →
      todo.user_id ≠ current_user.id →
      update_todo_completion todo_id completed current_user st now =
        Except.error ⟨403, "Not authorized to update this item", false⟩ ∧
      delete_todo_item todo_id current_user st =
        Except.error ⟨403, "Not authorized to delete this item", false⟩) := by
  constructor
  · intro h
    have hf : st.items.find? (fun t => t.id == todo_id) = none := by
      rw [List.find?_eq_none]
      intro t ht
      simpa using h t ht
    exact ⟨by simp [update_todo_completion, hf], by simp [delete_todo_item, hf]⟩
  · intro todo hfind hne
    have hb : (todo.user_id != current_user.id) = true := bne_iff_ne.mpr hne
    exact ⟨by simp [update_todo_completion, hfind, hb],
           by simp [delete_todo_item, hfind, hb]⟩

theorem todo_ops_existence_before_ownership_witness :
    update_todo_completion 5 true ⟨2, "bob", ⟨0, 0⟩, 0⟩ ⟨[⟨1, 1, "milk", false, 0, none⟩], 2⟩ 0 =
      Except.error ⟨404, "Todo item not found", false⟩ ∧
    delete_todo_item 1 ⟨2, "bob", ⟨0, 0⟩, 0⟩ ⟨[⟨1, 1, "milk", false, 0, none⟩], 2⟩ =
      Except.error ⟨403, "Not authorized to delete this item", false⟩ := by
  constructor
  · exact ((todo_ops_existence_before_ownership ⟨[⟨1, 1, "milk", false, 0, none⟩], 2⟩
      ⟨2, "bob", ⟨0, 0⟩, 0⟩ 5 true 0).1 (by decide)).1
  · exact ((todo_ops_existence_before_ownership ⟨[⟨1, 1, "milk", false, 0, none⟩], 2⟩
      ⟨2, "bob", ⟨0, 0⟩, 0⟩ 1 true 0).2 ⟨1, 1, "milk", false, 0, none⟩ (by rfl) (by decide)).2

/-- C4: a login attempt whose username matches no user and a login attempt
with an existing username but a rejected password produce the very same error
value — status 401, body `Invalid credentials`, identical headers — so the
response cannot reveal which factor failed. -/
theorem login_failures_indistinguishable
    (db : List User) (cfg : AppSettings) (now : Nat) (u1 p1 u2 p2 : String) (usr : User)
    (h1 : db.find? (fun u => u.username == pyLower u1) = none)
    (h2 : db.find? (fun u => u.username == pyLower u2) = some usr)
    (h3 : verify_password p2 usr.password_hash = false) :
    login u1 p1 db cfg now = Except.error invalidCredentials ∧
    login u2 p2 db cfg now = Except.error invalidCredentials := by
  exact ⟨by simp [login, h1], by simp [login, h2, h3]⟩

theorem login_failures_indistinguishable_witness :
    login "alice" "whatever1" [⟨1, "bob", hash_password 3 "password123", 0⟩] ⟨"s", "HS256", 24⟩ 0 =
      Except.error invalidCredentials ∧
    login "BOB" "wrongpass1" [⟨1, "bob", hash_password 3 "password123", 0⟩] ⟨"s", "HS256", 24⟩ 0 =
      Except.error invalidCredentials := by
  exact login_failures_indistinguishable [⟨1, "bob", hash_password 3 "password123", 0⟩]
    ⟨"s", "HS256", 24⟩ 0 "alice" "whatever1" "BOB" "wrongpass1"
    ⟨1, "bob", hash_password 3 "password123", 0⟩ (by decide) (by decide) (by decide)

/-- C5 (failing input): item creation validates `min_length=1` on the raw
text and only then strips whitespace, so the whitespace-only text `"   "`
passes validation and is persisted as an item whose stored text is the empty
string — it is not rejected as a validation error. -/
theorem create_todo_stores_whitespace_only_as_empty :
    validTodoItemCreate "   " = true ∧
    create_todo_item "   " ⟨1, "alice", ⟨0, 0⟩, 0⟩ ⟨[], 1⟩ 0 =
      Except.ok (⟨1, 1, "", false, 0, none⟩, ⟨[⟨1, 1, "", false, 0, none⟩], 2⟩) := by
  exact ⟨by decide, by rfl⟩

/-- C6: verifying a password against its own hash succeeds, and hashing the
same password under two distinct (fresh) salts yields two distinct digests,
each of which still verifies. -/
theorem password_hash_roundtrip_and_salted (p : String) (s1 s2 : Nat) (h : s1 ≠ s2) :
    verify_password p (hash_password s1 p) = true ∧
    verify_password p (hash_password s2 p) = true ∧
    hash_password s1 p ≠ hash_password s2 p := by
  refine ⟨by simp [verify_password, hash_password, bcryptHashWith], 
    by simp [verify_password, hash_password, bcryptHashWith], fun he => h ?_⟩
  simpa [hash_password, bcryptHashWith] using congrArg BcryptDigest.salt he

theorem password_hash_roundtrip_and_salted_witness :
    (0 : Nat) ≠ 1 ∧
    (verify_password "password123" (hash_password 0 "password123") = true ∧
     verify_password "password123" (hash_password 1 "password123") = true ∧
     hash_password 0 "password123" ≠ hash_password 1 "password123") :=
  ⟨by decide, password_hash_roundtrip_and_salted "password123" 0 1 (by decide)⟩

/-- C8: a successful owner PATCH changes only the completed flag and the
modification timestamp — id, owner, text and creation timestamp of the item
are untouched, `updated_at` is set to the commit instant, the updated item is
returned, and every other row is left in place. -/
theorem update_completion_frame
    (st : TodoDB) (current_user : User) (todo : TodoItem) (todo_id : Int) (completed : Bool) (now : Nat)
    (hfind : st.items.find? (fun t => t.id == todo_id) = some todo)
    (hown : todo.user_id = current_user.id) :
    ∃ updated st2,
      update_todo_completion todo_id completed current_user st now = Except.ok (updated, st2) ∧
      updated.id = todo.id ∧ updated.user_id = todo.user_id ∧
      updated.text = todo.text ∧ updated.created_at = todo.created_at ∧
      updated.completed = completed ∧ updated.updated_at = some now ∧
      st2.nextId = st.nextId ∧ st2.items.length = st.items.length ∧
      (∀ t ∈ st.items, t.id ≠ todo_id → t ∈ st2.items) := by
  have hb : (todo.user_id != current_user.id) = false := by simp [hown]
  refine ⟨⟨todo.id, todo.user_id, todo.text, completed, todo.created_at, some now⟩,
    ⟨st.items.map (fun t =>
      if t.id == todo_id then ⟨todo.id, todo.user_id, todo.text, completed, todo.created_at, some now⟩ else t),
     st.nextId⟩, ?_, rfl, rfl, rfl, rfl, rfl, rfl, rfl, ?_, ?_⟩
  · simp [update_todo_completion, hfind, hb]
  · simp
  · intro t ht hne
    have hf : (t.id == todo_id) = false := beq_eq_false_iff_ne.mpr hne
    have hm := List.mem_map_of_mem
      (fun t : TodoItem =>
        if t.id == todo_id then
          (⟨todo.id, todo.user_id, todo.text, completed, todo.created_at, some now⟩ : TodoItem)
        else t) ht
    simpa [hf] using hm

theorem update_completion_frame_witness :
    ∃ updated st2,
      update_todo_completion 1 true ⟨1, "alice", ⟨0, 0⟩, 0⟩ ⟨[⟨1, 1, "milk", false, 5, none⟩], 2⟩ 9 =
        Except.ok (updated, st2) ∧
      updated.id = 1 ∧ updated.user_id = 1 ∧
      updated.text = "milk" ∧ updated.created_at = 5 ∧
      updated.completed = true ∧ updated.updated_at = some 9 ∧
      st2.nextId = 2 ∧ st2.items.length = 1 ∧
      (∀ t ∈ [(⟨1, 1, "milk", false, 5, none⟩ : TodoItem)], t.id ≠ 1 → t ∈ st2.items) :=
  update_completion_frame ⟨[⟨1, 1, "milk", false, 5, none⟩], 2⟩ ⟨1, "alice", ⟨0, 0⟩, 0⟩
    ⟨1, 1, "milk", false, 5, none⟩ 1 true 9 (by rfl) (by decide)

/-- C10: the optional identity resolver returns `none` when no bearer token
is presented and on every failing token (signature or expiry failure at
decode, missing subject claim, unparseable subject claim), and otherwise
returns exactly the database lookup for the subject id — it never raises. -/
theorem optional_resolver_never_fails
    (cfg : AppSettings) (now : Nat) (db : List User) (credentials : Option Token) :
    (credentials = none → get_current_user_optional cfg now db credentials = none) ∧
    (∀ tok, credentials = some tok →
      jwtDecode tok cfg.SECRET_KEY [cfg.ALGORITHM] now = Except.error () →
      get_current_user_optional cfg now db credentials = none) ∧
    (∀ tok payload, credentials = some tok →
      jwtDecode tok cfg.SECRET_KEY [cfg.ALGORITHM] now = Except.ok payload →
      payload.sub = none →
      get_current_user_optional cfg now db credentials = none) ∧
    (∀ tok payload s, credentials = some tok →
      jwtDecode tok cfg.SECRET_KEY [cfg.ALGORITHM] now = Except.ok payload →
      payload.sub = some s → pyIntOfString s = none →
      get_current_user_optional cfg now db credentials = none) ∧
    (∀ tok payload s uid, credentials = some tok →
      jwtDecode tok cfg.SECRET_KEY [cfg.ALGORITHM] now = Except.ok payload →
      payload.sub = some s → pyIntOfString s = some uid →
      get_current_user_optional cfg now db credentials = db.find? (fun u => u.id == uid)) := by
  refine ⟨?_, ?_, ?_, ?_, ?_⟩
  · intro h; subst h; rfl
  · intro tok h hdec; subst h
    simp [get_current_user_optional, hdec]
  · intro tok payload h hdec hsub; subst h
    simp [get_current_user_optional, hdec, hsub]
  · intro tok payload s h hdec hsub hint; subst h
    simp [get_current_user_optional, hdec, hsub, hint]
  · intro tok payload s uid h hdec hsub hint; subst h
    simp [get_current_user_optional, hdec, hsub, hint]

theorem optional_resolver_never_fails_witness :
    get_current_user_optional ⟨"s", "HS256", 24⟩ 0 [⟨1, "bob", ⟨0, 0⟩, 0⟩]
      (some ⟨"s", "HS256", ⟨some "1", some "bob", some 100⟩⟩) = some ⟨1, "bob", ⟨0, 0⟩, 0⟩ :=
  ((optional_resolver_never_fails ⟨"s", "HS256", 24⟩ 0 [⟨1, "bob", ⟨0, 0⟩, 0⟩]
      (some ⟨"s", "HS256", ⟨some "1", some "bob", some 100⟩⟩)).2.2.2.2
    ⟨"s", "HS256", ⟨some "1", some "bob", some 100⟩⟩ ⟨some "1", some "bob", some 100⟩
    "1" 1 rfl (by rfl) rfl (by rfl)).trans (by rfl)

/-- C2 (counterexample): the failure for an absent token and the failure for
a presented-but-invalid token are not the same error — the security
dependency rejects an absent token with 403 `Not authenticated`, while an
invalid signature yields 401 `Could not validate credentials` — so identity
resolution does not fail with one uniform error across all the listed
cases. -/
theorem resolver_error_not_uniform :
    get_current_user ⟨"s", "HS256", 24⟩ 0 [] none = Except.error notAuthenticated ∧
    get_current_user ⟨"s", "HS256", 24⟩ 0 []
      (some ⟨"wrong", "HS256", ⟨some "1", none, some 10⟩⟩) =
      Except.error credentials_exception ∧
    notAuthenticated ≠ credentials_exception := by
  exact ⟨rfl, by rfl, by decide⟩

/-- C2 (amended): identity resolution fails exactly when the token is absent,
fails to decode (bad signature, wrong algorithm, expired), lacks a subject
claim, has an unparseable subject claim, or the subject id matches no user;
every failure with a token presented surfaces the single 401
`credentials_exception`, while an absent token is rejected with the distinct
403 `notAuthenticated`; otherwise the user record for the subject id is
returned.  It never fails in any other way. -/
theorem resolver_failure_characterization
    (cfg : AppSettings) (now : Nat) (db : List User) (credentials : Option Token) :
    (credentials = none → get_current_user cfg now db credentials = Except.error notAuthenticated) ∧
    (∀ tok, credentials = some tok →
      (jwtDecode tok cfg.SECRET_KEY [cfg.ALGORITHM] now = Except.error () →
        get_current_user cfg now db credentials = Except.error credentials_exception) ∧
      (∀ payload, jwtDecode tok cfg.SECRET_KEY [cfg.ALGORITHM] now = Except.ok payload →
        (payload.sub = none →
          get_current_user cfg now db credentials = Except.error credentials_exception) ∧
        (∀ s, payload.sub = some s →
          (pyIntOfString s = none →
            get_current_user cfg now db credentials = Except.error credentials_exception) ∧
          (∀ uid, pyIntOfString s = some uid →
            (db.find? (fun u => u.id == uid) = none →
              get_current_user cfg now db credentials = Except.error credentials_exception) ∧
            (∀ usr, db.find? (fun u => u.id == uid) = some usr →
              get_current_user cfg now db credentials = Except.ok usr))))) := by
  constructor
  · intro h; subst h; rfl
  · intro tok h; subst h
    constructor
    · intro hdec; simp [get_current_user, hdec]
    · intro payload hdec
      constructor
      · intro hsub; simp [get_current_user, hdec, hsub]
      · intro s hsub
        constructor
        · intro hint; simp [get_current_user, hdec, hsub, hint]
        · intro uid hint
          constructor
          · intro hfind; simp [get_current_user, hdec, hsub, hint, hfind]
          · intro usr hfind; simp [get_current_user, hdec, hsub, hint, hfind]

theorem resolver_failure_characterization_witness :
    get_current_user ⟨"s", "HS256", 24⟩ 0 [⟨7, "bob", ⟨0, 0⟩, 0⟩]
      (some ⟨"s", "HS256", ⟨some "7", some "bob", some 50⟩⟩) =
      Except.ok ⟨7, "bob", ⟨0, 0⟩, 0⟩ :=
  ((((((resolver_failure_characterization ⟨"s", "HS256", 24⟩ 0 [⟨7, "bob", ⟨0, 0⟩, 0⟩]
      (some ⟨"s", "HS256", ⟨some "7", some "bob", some 50⟩⟩)).2
    ⟨"s", "HS256", ⟨some "7", some "bob", some 50⟩⟩ rfl).2
    ⟨some "7", some "bob", some 50⟩ (by rfl)).2
    "7" rfl).2 7 (by rfl)).2 ⟨7, "bob", ⟨0, 0⟩, 0⟩ (by rfl))

/-- C9 (counterexample): a `/api/todos` operation invoked with an invalid
bearer token fails with status 401, not 403. -/
theorem todos_invalid_token_gives_401_not_403 :
    listTodosEndpoint ⟨"s", "HS256", 24⟩ 0 []
      (some ⟨"wrong", "HS256", ⟨some "1", none, some 10⟩⟩) ⟨[], 1⟩ =
      Except.error credentials_exception ∧
    credentials_exception.status = 401 ∧ credentials_exception.status ≠ 403 := by
  exact ⟨by rfl, rfl, by decide⟩

/-- C9 (amended): every `/api/todos` operation invoked without a bearer token
fails with HTTP status 403 (`Not authenticated`), and every such operation
invoked with a bearer token that fails to decode (invalid signature, wrong
algorithm, or expired) fails with HTTP status 401 (`Could not validate
credentials`). -/
theorem todos_endpoints_auth_rejection
    (cfg : AppSettings) (now : Nat) (users : List User) (text : String) (st : TodoDB)
    (todo_id : Int) (completed : Bool) :
    (createTodoEndpoint cfg now users none text st = Except.error notAuthenticated ∧
     listTodosEndpoint cfg now users none st = Except.error notAuthenticated ∧
     updateTodoEndpoint cfg now users none todo_id completed st = Except.error notAuthenticated ∧
     deleteTodoEndpoint cfg now users none todo_id st = Except.error notAuthenticated ∧
     notAuthenticated.status = 403) ∧
    (∀ tok, jwtDecode tok cfg.SECRET_KEY [cfg.ALGORITHM] now = Except.error () →
      createTodoEndpoint cfg now users (some tok) text st = Except.error credentials_exception ∧
      listTodosEndpoint cfg now users (some tok) st = Except.error credentials_exception ∧
      updateTodoEndpoint cfg now users (some tok) todo_id completed st = Except.error credentials_exception ∧
      deleteTodoEndpoint cfg now users (some tok) todo_id st = Except.error credentials_exception ∧
      credentials_exception.status = 401) := by
  constructor
  · exact ⟨rfl, rfl, rfl, rfl, rfl⟩
  · intro tok hdec
    refine ⟨?_, ?_, ?_, ?_, rfl⟩ <;>
      simp [createTodoEndpoint, listTodosEndpoint, updateTodoEndpoint, deleteTodoEndpoint,
        get_current_user, hdec]

theorem todos_endpoints_auth_rejection_witness :
    createTodoEndpoint ⟨"s", "HS256", 24⟩ 10 [] (some ⟨"s", "HS256", ⟨some "1", none, some 5⟩⟩)
      "x" ⟨[], 1⟩ = Except.error credentials_exception :=
  ((todos_endpoints_auth_rejection ⟨"s", "HS256", 24⟩ 10 [] "x" ⟨[], 1⟩ 1 true).2
    ⟨"s", "HS256", ⟨some "1", none, some 5⟩⟩ (by rfl)).1

theorem perm_insertByIdDesc (t : TodoItem) (l : List TodoItem) :
    List.Perm (insertByIdDesc t l) (t :: l) := by
  induction l with
  | nil => exact List.Perm.refl _
  | cons h rest ih =>
    by_cases hc : h.id ≤ t.id
    · rw [insertByIdDesc, if_pos hc]
    · rw [insertByIdDesc, if_neg hc]
      exact (List.Perm.cons h ih).trans (List.Perm.swap t h rest)

theorem perm_sortByIdDesc (l : List TodoItem) : List.Perm (sortByIdDesc l) l := by
  induction l with
  | nil => exact List.Perm.refl _
  | cons h rest ih =>
    exact (perm_insertByIdDesc h (sortByIdDesc rest)).trans (List.Perm.cons h ih)

theorem pairwise_insertByIdDesc (t : TodoItem) (l : List TodoItem)
    (hl : l.Pairwise (fun a b => b.id ≤ a.id)) :
    (insertByIdDesc t l).Pairwise (fun a b => b.id ≤ a.id) := by
  induction l with
  | nil => simp [insertByIdDesc]
  | cons h rest ih =>
    rw [List.pairwise_cons] at hl
    obtain ⟨hh, hrest⟩ := hl
    by_cases hc : h.id ≤ t.id
    · rw [insertByIdDesc, if_pos hc, List.pairwise_cons]
      refine ⟨?_, ?_⟩
      · intro y hy
        rcases List.mem_cons.mp hy with h1 | h2
        · exact h1 ▸ hc
        · exact le_trans (hh y h2) hc
      · rw [List.pairwise_cons]
        exact ⟨hh, hrest⟩
    · rw [insertByIdDesc, if_neg hc, List.pairwise_cons]
      refine ⟨?_, ih hrest⟩
      intro y hy
      rcases List.mem_cons.mp ((perm_insertByIdDesc t rest).mem_iff.mp hy) with h1 | h2
      · exact h1 ▸ le_of_not_le hc
      · exact hh y h2

theorem pairwise_sortByIdDesc (l : List TodoItem) :
    (sortByIdDesc l).Pairwise (fun a b => b.id ≤ a.id) := by
  induction l with
  | nil => simp [sortByIdDesc]
  | cons h rest ih => exact pairwise_insertByIdDesc h (sortByIdDesc rest) ih

/-- C7: `GET /api/todos` returns exactly the items whose owner is the caller
— an item appears in the result iff it is in the table and owned by the
caller — as a fully materialized list in strictly descending id order
(newest-first), given that the table's primary keys are unique. -/
theorem list_todos_exactly_owned_sorted (current_user : User) (st : TodoDB) :
    (∀ x, x ∈ get_all_todos current_user st ↔ x ∈ st.items ∧ x.user_id = current_user.id) ∧
    ((st.items.map (fun t => t.id)).Nodup →
      (get_all_todos current_user st).Pairwise (fun a b => b.id < a.id)) := by
  constructor
  · intro x
    unfold get_all_todos
    rw [(perm_sortByIdDesc _).mem_iff, List.mem_filter]
    simp
  · intro hnodup
    have hge : (get_all_todos current_user st).Pairwise (fun a b => b.id ≤ a.id) :=
      pairwise_sortByIdDesc (st.items.filter (fun t => t.user_id == current_user.id))
    have hperm : List.Perm (get_all_todos current_user st)
        (st.items.filter (fun t => t.user_id == current_user.id)) :=
      perm_sortByIdDesc _
    have hsub : List.Sublist ((st.items.filter (fun t => t.user_id == current_user.id)).map
        (fun t => t.id)) (st.items.map (fun t => t.id)) :=
      (List.filter_sublist _).map _
    have hnd1 : ((st.items.filter (fun t => t.user_id == current_user.id)).map
        (fun t => t.id)).Nodup := List.Nodup.sublist hsub hnodup
    have hndout : ((get_all_todos current_user st).map (fun t => t.id)).Nodup :=
      List.Perm.nodup (List.Perm.symm (hperm.map (fun t => t.id))) hnd1
    have hne : (get_all_todos current_user st).Pairwise (fun a b => a.id ≠ b.id) := by
      exact List.pairwise_map.mp hndout
    exact (hge.and hne).imp (fun hab => lt_of_le_of_ne hab.1 (Ne.symm hab.2))

theorem list_todos_exactly_owned_sorted_witness :
    (get_all_todos ⟨1, "alice", ⟨0, 0⟩, 0⟩
      ⟨[⟨1, 1, "a", false, 0, none⟩, ⟨2, 1, "b", false, 0, none⟩, ⟨3, 2, "c", false, 0, none⟩], 4⟩).Pairwise
      (fun a b => b.id < a.id) :=
  (list_todos_exactly_owned_sorted ⟨1, "alice", ⟨0, 0⟩, 0⟩
    ⟨[⟨1, 1, "a", false, 0, none⟩, ⟨2, 1, "b", false, 0, none⟩, ⟨3, 2, "c", false, 0, none⟩], 4⟩).2
    (by decide)

theorem char_toNat_ofNat_valid (n : Nat) (h : Nat.isValidChar n) : (Char.ofNat n).toNat = n := by
  rw [Char.ofNat, dif_pos h]
  rfl

theorem toLower_toNat_eq (c : Char) :
    (Char.toLower c).toNat = if 65 ≤ c.toNat ∧ c.toNat ≤ 90 then c.toNat + 32 else c.toNat := by
  unfold Char.toLower
  by_cases hc : c.toNat ≥ 65 ∧ c.toNat ≤ 90
  · rw [if_pos hc, if_pos ⟨hc.1, hc.2⟩]
    exact char_toNat_ofNat_valid (c.toNat + 32) (Or.inl (by omega))
  · rw [if_neg hc, if_neg (fun h => hc ⟨h.1, h.2⟩)]

/-- Lowercasing in the basic latin range cannot turn a character outside the
username alphabet `[a-zA-Z0-9_]` into one whose lowercase form agrees with a
character inside it. -/
theorem validUsernameChar_of_toLower_eq {c1 c2 : Char}
    (hv : validUsernameChar c1 = true) (h : Char.toLower c1 = Char.toLower c2) :
    validUsernameChar c2 = true := by
  have hn := congrArg Char.toNat h
  rw [toLower_toNat_eq, toLower_toNat_eq] at hn
  simp only [validUsernameChar, Bool.or_eq_true, Bool.and_eq_true, decide_eq_true_eq,
    beq_iff_eq] at hv ⊢
  split_ifs at hn <;> omega

theorem all_valid_of_map_toLower_eq (l1 l2 : List Char)
    (hall : l1.all validUsernameChar = true)
    (hmap : l2.map Char.toLower = l1.map Char.toLower) :
    l2.all validUsernameChar = true := by
  induction l2 generalizing l1 with
  | nil => rfl
  | cons c2 t2 ih =>
    cases l1 with
    | nil => simp at hmap
    | cons c1 t1 =>
      simp only [List.map_cons, List.cons.injEq] at hmap
      simp only [List.all_cons, Bool.and_eq_true] at hall ⊢
      exact ⟨validUsernameChar_of_toLower_eq hall.1 hmap.1.symm, ih t1 hall.2 hmap.2⟩

/-- The stored username of a user row makes the uniqueness lookup succeed. -/
theorem usernameExists_of_mem {usr : User} {db : List User} {name : String}
    (hm : usr ∈ db) (he : usr.username = name) : usernameExists db name = true := by
  unfold usernameExists
  rw [List.find?_isSome]
  exact ⟨usr, hm, by simp [he]⟩

theorem register_conflict_of_exists (d : UserCreate) (dbCheck dbInsert : List User)
    (s : Nat) (i : Int) (n : Nat)
    (h : usernameExists dbCheck d.username = true ∨ usernameExists dbInsert d.username = true) :
    register d dbCheck dbInsert s i n = Except.error usernameConflict := by
  unfold register
  by_cases h1 : usernameExists dbCheck d.username = true
  · rw [if_pos h1]
  · rw [if_neg h1, if_pos (h.resolve_left h1)]

theorem register_ok_username (d : UserCreate) (dbCheck dbInsert : List User)
    (s : Nat) (i : Int) (n : Nat) (res : User × List User)
    (h : register d dbCheck dbInsert s i n = Except.ok res) : res.1.username = d.username := by
  unfold register at h
  by_cases h1 : usernameExists dbCheck d.username = true
  · rw [if_pos h1] at h; exact absurd h (by simp)
  · rw [if_neg h1] at h
    by_cases h2 : usernameExists dbInsert d.username = true
    · rw [if_pos h2] at h; exact absurd h (by simp)
    · rw [if_neg h2] at h
      rw [← congrArg Prod.fst (Except.ok.inj h)]

/-- C3: once a registration for `u1` has succeeded, any later registration
attempt whose username agrees with `u1` up to case (and whose password meets
the schema's length precondition) fails with the 409 conflict — whether the
stored row is already visible to the duplicate check (`dbC`) or only appears
at commit time (`dbD`), i.e. the unique-constraint race is translated to the
same conflict error rather than an internal fault. -/
theorem register_case_insensitive_conflict
    (u1 p1 u2 p2 : String) (db db2 dbC dbD : List User) (salt1 salt2 : Nat)
    (id1 id2 : Int) (now1 now2 : Nat) (usr : User)
    (h1 : registerEndpoint u1 p1 db db salt1 id1 now1 = Except.ok (usr, db2))
    (hl : pyLower u2 = pyLower u1)
    (hp : 8 ≤ p2.length)
    (hpresent : usr ∈ dbC ∨ usr ∈ dbD) :
    registerEndpoint u2 p2 dbC dbD salt2 id2 now2 = Except.error usernameConflict := by
  unfold registerEndpoint at h1
  cases hval : validateUserCreate u1 p1 with
  | none => rw [hval] at h1; exact absurd h1 (by simp)
  | some data =>
    rw [hval] at h1
    have h1' : register data db db salt1 id1 now1 = Except.ok (usr, db2) := h1
    have hcond : ((3 ≤ u1.length && u1.length ≤ 50 && u1.data.all validUsernameChar
        && 8 ≤ p1.length) = true) ∧ data = ⟨pyLower u1, p1⟩ := by
      unfold validateUserCreate at hval
      by_cases hc : (3 ≤ u1.length && u1.length ≤ 50 && u1.data.all validUsernameChar
          && 8 ≤ p1.length) = true
      · rw [if_pos hc] at hval
        exact ⟨hc, (Option.some.inj hval).symm⟩
      · rw [if_neg hc] at hval
        exact absurd hval (by simp)
    have husr : usr.username = pyLower u1 := by
      have := register_ok_username data db db salt1 id1 now1 (usr, db2) h1'
      rw [hcond.2] at this
      exact this
    have hflags := hcond.1
    simp only [Bool.and_eq_true, decide_eq_true_eq] at hflags
    obtain ⟨⟨⟨h3, h50⟩, hall1⟩, _⟩ := hflags
    have hmapeq : u2.data.map Char.toLower = u1.data.map Char.toLower := congrArg String.data hl
    have hall2 : u2.data.all validUsernameChar = true :=
      all_valid_of_map_toLower_eq u1.data u2.data hall1 hmapeq
    have hlen : u2.length = u1.length := by
      have hmlen := congrArg List.length hmapeq
      simp only [List.length_map] at hmlen
      exact hmlen
    have hc2 : (3 ≤ u2.length && u2.length ≤ 50 && u2.data.all validUsernameChar
        && 8 ≤ p2.length) = true := by
      simp only [Bool.and_eq_true, decide_eq_true_eq]
      exact ⟨⟨⟨by omega, by omega⟩, hall2⟩, hp⟩
    have hv2 : validateUserCreate u2 p2 = some ⟨pyLower u1, p2⟩ := by
      unfold validateUserCreate
      rw [if_pos hc2, hl]
    unfold registerEndpoint
    rw [hv2]
    exact register_conflict_of_exists ⟨pyLower u1, p2⟩ dbC dbD salt2 id2 now2
      (hpresent.imp (fun hm => usernameExists_of_mem hm husr)
        (fun hm => usernameExists_of_mem hm husr))

theorem register_case_insensitive_conflict_witness :
    registerEndpoint "ALICE" "different1"
      [⟨1, "alice", hash_password 0 "password123", 0⟩]
      [⟨1, "alice", hash_password 0 "password123", 0⟩] 1 2 1 =
      Except.error usernameConflict :=
  register_case_insensitive_conflict "Alice" "password123" "ALICE" "different1" []
    [⟨1, "alice", hash_password 0 "password123", 0⟩]
    [⟨1, "alice", hash_password 0 "password123", 0⟩]
    [⟨1, "alice", hash_password 0 "password123", 0⟩]
    0 1 1 2 0 1 ⟨1, "alice", hash_password 0 "password123", 0⟩
    (by rfl) (by rfl) (by decide) (Or.inl (by simp))
